import Mathlib

/-!
Verification of the MOLTVILLE citizen decision engine
(src/skill/agents/bot5/moltville_skill.py).

The Python code is shallowly embedded: JSON-like dynamic values are the
inductive `JVal`; Python numbers are rationals; Python `dict.get`,
truthiness and `or`-chaining are modelled explicitly.  Functions keep the
source names (leading underscores dropped).
-/

/-- Dynamic JSON-like values flowing through the agent (dicts are
association lists; duplicate keys do not arise). -/
inductive JVal where
  | jnull
  | jbool (b : Bool)
  | jnum (q : ℚ)
  | jstr (s : String)
  | jarr (elems : List JVal)
  | jobj (fields : List (String × JVal))

/-- Python truthiness (`bool(v)`). -/
def jTruthy : JVal → Bool
  | .jnull => false
  | .jbool b => b
  | .jnum q => q != 0
  | .jstr s => s != ""
  | .jarr l => !l.isEmpty
  | .jobj l => !l.isEmpty

/-- Key lookup in a dict, `none` when the key is absent. -/
def jGet? (fields : List (String × JVal)) (k : String) : Option JVal :=
  (fields.find? (fun p => p.1 == k)).map (fun p => p.2)

/-- Python `d.get(k, default)`. -/
def jGetD (fields : List (String × JVal)) (k : String) (d : JVal) : JVal :=
  (jGet? fields k).getD d

/-- Python `d.get(k)` (absent key gives `None`). -/
def jGetN (fields : List (String × JVal)) (k : String) : JVal :=
  jGetD fields k .jnull

/-- Python `a or b`. -/
def pyOr (a b : JVal) : JVal :=
  if jTruthy a then a else b

/-- Python `isinstance(v, (int, float))`; a `bool` is an `int` in Python. -/
def isPyNum : JVal → Bool
  | .jnum _ => true
  | .jbool _ => true
  | _ => false

/-- Numeric value of a Python number (`True` counts as 1). -/
def pyNumVal : JVal → ℚ
  | .jnum q => q
  | .jbool b => if b then 1 else 0
  | _ => 0

/-- Python `int(q)`: truncation toward zero. -/
def pyTrunc (q : ℚ) : ℤ :=
  if 0 ≤ q then ⌊q⌋ else ⌈q⌉

/-- Python `isinstance(v, str)` combined with extraction. -/
def asStr? : JVal → Option String
  | .jstr s => some s
  | _ => none

/-- Lowercasing, as applied by `str.lower()` (ASCII letters). -/
def pyLower (s : String) : String :=
  String.mk (s.data.map Char.toLower)

/-- Python `str.strip()`: drop whitespace at both ends. -/
def stripChars (l : List Char) : List Char :=
  ((l.dropWhile Char.isWhitespace).reverse.dropWhile Char.isWhitespace).reverse

/-- Python `s.strip()`. -/
def pyStrip (s : String) : String :=
  String.mk (stripChars s.data)

/-- Substring occurrence test on character lists. -/
def hasSub (needle : List Char) : List Char → Bool
  | [] => needle.isEmpty
  | c :: rest => needle.isPrefixOf (c :: rest) || hasSub needle rest

/-- Python `needle in hay` on strings. -/
def strIn (needle hay : String) : Bool :=
  hasSub needle.data hay.data

/-- Python `str(v)` as used for building-name comparison (containers are
never legitimate names, so they render to sentinels). -/
def pyStr : JVal → String
  | .jstr s => s
  | .jnull => "None"
  | .jbool b => if b then "True" else "False"
  | .jnum q => if q.den == 1 then toString q.num else toString q
  | .jarr _ => "<list>"
  | .jobj _ => "<dict>"

/-- The fixed banned lexical list of `_is_meta_message`. -/
def bannedTokens : List String :=
  ["modelo", "llm", "ia", "sistema", "servidor", "api", "oauth", "prueba",
   "test", "prompt", "ciclo", "coordenad", "estabilidad", "monitoreo",
   "instruccion", "instrucción", "parametro", "parámetro", "secuencia",
   "diagnostic", "observacion", "observación"]

/-- Embedding of `_is_meta_message` on string input (a non-string input
returns True in the source; string callers are modelled here). -/
def is_meta_message (message : String) : Bool :=
  bannedTokens.any (fun term => strIn term (pyLower message))

/-- Canonical action dict `{type: t, params: ps}` returned by the
sanitizer. -/
def mkAct (t : String) (ps : List (String × JVal)) : JVal :=
  .jobj [("type", .jstr t), ("params", .jobj ps)]

/-- Canonical `move_to` result (coordinates coerced to integers). -/
def mkMove (x y : ℤ) : JVal :=
  mkAct "move_to" [("x", .jnum (x : ℚ)), ("y", .jnum (y : ℚ))]

/-- Lookup in a perceived building object (buildings are dicts). -/
def bGetN (b : JVal) (k : String) : JVal :=
  match b with
  | .jobj fs => jGetN fs k
  | _ => .jnull

/-- Python `==` between a JSON value and a string. -/
def jEqStr (v : JVal) (s : String) : Bool :=
  match v with
  | .jstr t => t == s
  | _ => false

/-- Tail of the `move_to` branch: `targetX`/`targetY` synonyms, then the
building-id fallback against `nearbyBuildings`. -/
def sanitize_move_rest (bs : List JVal) (ps : List (String × JVal)) : Option JVal :=
  let tx := jGetN ps "targetX"
  let ty := jGetN ps "targetY"
  if isPyNum tx && isPyNum ty then
    some (mkMove (pyTrunc (pyNumVal tx)) (pyTrunc (pyNumVal ty)))
  else
    let tid := pyOr (jGetN ps "targetId") (jGetN ps "target")
    match asStr? tid with
    | some s =>
      if s != "" then
        let key := pyLower (pyStrip s)
        match bs.find? (fun b =>
            jEqStr (bGetN b "id") key || pyLower (pyStr (bGetN b "name")) == key) with
        | some b =>
          let pos := pyOr (bGetN b "position") (.jobj [])
          let bx := bGetN pos "x"
          let by_ := bGetN pos "y"
          if isPyNum bx && isPyNum by_ then
            some (mkMove (pyTrunc (pyNumVal bx)) (pyTrunc (pyNumVal by_)))
          else none
        | none => none
      else none
    | none => none

/-- The `move_to` branch of `_sanitize_llm_action`: direct coordinates,
then a `position`/`targetPosition` object, then `sanitize_move_rest`. -/
def sanitize_move_to (bs : List JVal) (ps : List (String × JVal)) : Option JVal :=
  let x := jGetN ps "x"
  let y := jGetN ps "y"
  if isPyNum x && isPyNum y then
    some (mkMove (pyTrunc (pyNumVal x)) (pyTrunc (pyNumVal y)))
  else
    match pyOr (jGetN ps "position") (jGetN ps "targetPosition") with
    | .jobj al =>
      let ax := jGetN al "x"
      let ay := jGetN al "y"
      if isPyNum ax && isPyNum ay then
        some (mkMove (pyTrunc (pyNumVal ax)) (pyTrunc (pyNumVal ay)))
      else sanitize_move_rest bs ps
    | _ => sanitize_move_rest bs ps

/-- The `enter_building` branch. -/
def sanitize_enter_building (ps : List (String × JVal)) : Option JVal :=
  match asStr? (jGetN ps "building_id") with
  | some b =>
    if pyStrip b != "" then
      some (mkAct "enter_building" [("building_id", .jstr (pyStrip b))])
    else none
  | none => none

/-- The `speak` branch: any string message is accepted verbatim (the source
applies no meta filter here). -/
def sanitize_speak (ps : List (String × JVal)) : Option JVal :=
  match asStr? (jGetN ps "message") with
  | some m => some (mkAct "speak" [("message", .jstr m)])
  | none => none

/-- The `start_conversation` branch: synonymous target names, `message` or
`text`, meta-content gate. -/
def sanitize_start_conversation (ps : List (String × JVal)) : Option JVal :=
  let tid := pyOr (pyOr (pyOr (pyOr (jGetN ps "target_id") (jGetN ps "targetId"))
      (jGetN ps "target")) (jGetN ps "to")) (jGetN ps "otherId")
  let msg := pyOr (jGetN ps "message") (jGetN ps "text")
  match asStr? tid with
  | some t =>
    match asStr? msg with
    | some m =>
      if pyStrip t != "" then
        if is_meta_message m then none
        else some (mkAct "start_conversation"
          [("target_id", .jstr (pyStrip t)), ("message", .jstr m)])
      else none
    | none => none
  | none => none

/-- Target-id fallback of the `conversation_message` branch. -/
def sanitize_conv_msg_target (ps : List (String × JVal)) (m : String) : Option JVal :=
  let tid := pyOr (pyOr (pyOr (pyOr (jGetN ps "target_id") (jGetN ps "targetId"))
      (jGetN ps "target")) (jGetN ps "to")) (jGetN ps "otherId")
  match asStr? tid with
  | some t =>
    if pyStrip t != "" then
      some (mkAct "conversation_message"
        [("target_id", .jstr (pyStrip t)), ("message", .jstr m)])
    else none
  | none => none

/-- The `conversation_message` branch: meta gate, then conversation id, then
target-id fallback. -/
def sanitize_conversation_message (ps : List (String × JVal)) : Option JVal :=
  let cid := pyOr (jGetN ps "conversation_id") (jGetN ps "conversationId")
  let msg := pyOr (jGetN ps "message") (jGetN ps "text")
  match asStr? msg with
  | some m =>
    if is_meta_message m then none
    else
      match asStr? cid with
      | some c =>
        if pyStrip c != "" then
          some (mkAct "conversation_message"
            [("conversation_id", .jstr (pyStrip c)), ("message", .jstr m)])
        else sanitize_conv_msg_target ps m
      | none => sanitize_conv_msg_target ps m
  | none => none

/-- The `apply_job` branch. -/
def sanitize_apply_job (ps : List (String × JVal)) : Option JVal :=
  match asStr? (jGetN ps "job_id") with
  | some j =>
    if pyStrip j != "" then
      some (mkAct "apply_job" [("job_id", .jstr (pyStrip j))])
    else none
  | none => none

/-- The `buy_property` branch. -/
def sanitize_buy_property (ps : List (String × JVal)) : Option JVal :=
  match asStr? (pyOr (jGetN ps "property_id") (jGetN ps "propertyId")) with
  | some p =>
    if pyStrip p != "" then
      some (mkAct "buy_property" [("property_id", .jstr (pyStrip p))])
    else none
  | none => none

/-- The `vote_job` branch. -/
def sanitize_vote_job (ps : List (String × JVal)) : Option JVal :=
  match asStr? (pyOr (jGetN ps "applicant_id") (jGetN ps "applicantId")) with
  | some a =>
    match asStr? (pyOr (jGetN ps "job_id") (jGetN ps "jobId")) with
    | some j =>
      if pyStrip a != "" && pyStrip j != "" then
        some (mkAct "vote_job"
          [("applicant_id", .jstr (pyStrip a)), ("job_id", .jstr (pyStrip j))])
      else none
    | none => none
  | none => none

/-- Whitelist dispatch on the action type string. -/
def sanitizeDispatch (bs : List JVal) (t : String) (ps : List (String × JVal)) : Option JVal :=
  if t = "move_to" then sanitize_move_to bs ps
  else if t = "enter_building" then sanitize_enter_building ps
  else if t = "speak" then sanitize_speak ps
  else if t = "start_conversation" then sanitize_start_conversation ps
  else if t = "conversation_message" then sanitize_conversation_message ps
  else if t = "apply_job" then sanitize_apply_job ps
  else if t = "buy_property" then sanitize_buy_property ps
  else if t = "vote_job" then sanitize_vote_job ps
  else if t = "wait" then some (mkAct "wait" [])
  else none

/-- Embedding of `_sanitize_llm_action`.  `bs` is
`current_state.perception.nearbyBuildings`, used only by the `move_to`
building-name fallback. -/
def sanitize_llm_action (bs : List JVal) (action : JVal) : Option JVal :=
  match action with
  | .jobj afields =>
    match asStr? (jGetN afields "type") with
    | some t =>
      let rawParams := pyOr (jGetD afields "params" (.jobj [])) (.jobj [])
      let ps : List (String × JVal) :=
        match rawParams with
        | .jobj l => l
        | _ => []
      sanitizeDispatch bs t ps
    | none => none
  | _ => none

/-- Request dict `{type: t, params: ps}` used to exercise the sanitizer. -/
def mkReq (t : String) (ps : List (String × JVal)) : JVal :=
  .jobj [("type", .jstr t), ("params", .jobj ps)]

/-- The nine whitelisted action kinds. -/
def actionWhitelist : List String :=
  ["move_to", "enter_building", "speak", "start_conversation",
   "conversation_message", "apply_job", "buy_property", "vote_job", "wait"]

/-- Canonical shape of a sanitizer output: one of the nine whitelisted
types with exactly its required, coerced fields. -/
def CanonicalAction (v : JVal) : Prop :=
  (∃ x y : ℤ, v = mkMove x y) ∨
  (∃ b, b ≠ "" ∧ v = mkAct "enter_building" [("building_id", .jstr b)]) ∨
  (∃ m, v = mkAct "speak" [("message", .jstr m)]) ∨
  (∃ t m, t ≠ "" ∧ v = mkAct "start_conversation"
      [("target_id", .jstr t), ("message", .jstr m)]) ∨
  (∃ c m, c ≠ "" ∧ v = mkAct "conversation_message"
      [("conversation_id", .jstr c), ("message", .jstr m)]) ∨
  (∃ t m, t ≠ "" ∧ v = mkAct "conversation_message"
      [("target_id", .jstr t), ("message", .jstr m)]) ∨
  (∃ j, j ≠ "" ∧ v = mkAct "apply_job" [("job_id", .jstr j)]) ∨
  (∃ p, p ≠ "" ∧ v = mkAct "buy_property" [("property_id", .jstr p)]) ∨
  (∃ a j, a ≠ "" ∧ j ≠ "" ∧ v = mkAct "vote_job"
      [("applicant_id", .jstr a), ("job_id", .jstr j)]) ∨
  (v = mkAct "wait" [])

/-- A motivation-chain step: id, human label, prerequisite step ids, and a
status string ("pending" or "done"). -/
structure Step where
  id : String
  label : String
  requires : List String
  status : String

/-- Embedding of `_mark_chain_done`: set the status of every step with the
given id to "done". -/
def mark_chain_done (chain : List Step) (step_id : String) : List Step :=
  chain.map (fun s => if s.id = step_id then { s with status := "done" } else s)

/-- Embedding of `_chain_ready`: a step is ready iff every required step id
resolves to a step whose status is "done". -/
def chain_ready (chain : List Step) (step : Step) : Bool :=
  step.requires.all (fun req =>
    match chain.find? (fun s => s.id == req) with
    | some s' => s'.status == "done"
    | none => false)

/-- The fixed chain templates of `_build_motivation_chain`
(id, label, requires). -/
def build_motivation_chain (desire : String) : List (String × String × List String) :=
  if desire = "be_president" then
    [("desire_president", "Quiero liderar la ciudad", []),
     ("build_reputation", "Necesito reputación positiva", ["desire_president"]),
     ("help_citizens", "Debo ayudar a ciudadanos concretos", ["build_reputation"]),
     ("register_candidate", "Registrarme como candidato", ["help_citizens"]),
     ("win_votes", "Conseguir votos reales", ["register_candidate"])]
  else if desire = "start_business" then
    [("desire_business", "Quiero abrir un negocio", []),
     ("need_capital", "Necesito capital", ["desire_business"]),
     ("get_job", "Necesito un trabajo estable", ["need_capital"]),
     ("get_votes", "Necesito votos para conseguir ese trabajo", ["get_job"]),
     ("open_business", "Proponer y votar un nuevo local", ["need_capital"])]
  else if desire = "find_love" then
    [("desire_date", "Quiero tener una cita", []),
     ("build_relationship", "Necesito ganar confianza con alguien", ["desire_date"]),
     ("need_money", "Necesito dinero para planear la cita", ["build_relationship"]),
     ("get_job", "Necesito un trabajo estable", ["need_money"]),
     ("get_votes", "Necesito votos para el trabajo", ["get_job"]),
     ("plan_date", "Proponer la cita en un lugar concreto", ["need_money"])]
  else
    [("desire_house", "Quiero un hogar propio", []),
     ("need_money", "Necesito dinero", ["desire_house"]),
     ("get_job", "Necesito un trabajo estable", ["need_money"]),
     ("get_votes", "Necesito votos para el trabajo", ["get_job"]),
     ("build_support", "Debo ganarme apoyo ayudando a otros", ["get_votes"]),
     ("buy_house", "Comprar casa", ["need_money"])]

/-- `_ensure_motivation_state` instantiates the template with every step
pending. -/
def init_chain (tmpl : List (String × String × List String)) : List Step :=
  tmpl.map (fun t => ⟨t.1, t.2.1, t.2.2, "pending"⟩)

/-- Embedding of `_update_motivation_progress` on a chain: an active job
marks `get_job` done; a nonzero frozen target price not exceeding the
balance marks `need_money` done.  `hasJob` is the truthiness of
`economy.job`; `targetPrice` is `goalState.targetPrice or 0`. -/
def update_motivation_progress (chain : List Step) (hasJob : Bool)
    (balance targetPrice : ℚ) : List Step :=
  let c1 := if hasJob then mark_chain_done chain "get_job" else chain
  if targetPrice ≠ 0 ∧ targetPrice ≤ balance then mark_chain_done c1 "need_money" else c1

/-- The per-step effect of one `_update_motivation_progress` call, used to
characterize it as a map over the chain. -/
def motivation_update_rule (hasJob : Bool) (balance targetPrice : ℚ) (s : Step) : Step :=
  if (hasJob = true ∧ s.id = "get_job") ∨
     ((targetPrice ≠ 0 ∧ targetPrice ≤ balance) ∧ s.id = "need_money") then
    { s with status := "done" }
  else s

/-- Python `max(lo, min(hi, val))` from the local `clamp` helper of
`_update_relationship_memory`, with its fixed bounds. -/
def relClamp (val : ℤ) : ℤ :=
  max (-10) (min 10 val)

/-- Python `s[:n]` character truncation. -/
def pyTake (s : String) (n : Nat) : String :=
  String.mk (s.data.take n)

/-- A stored relationship score record. -/
structure RelationshipScore where
  affinity : ℤ
  trust : ℤ
  respect : ℤ
  lastNote : String
  lastMessage : String

/-- Embedding of `_update_relationship_memory`: add the integer deltas from
the analysis to the current scores, clamping each to [-10, 10], and record
the truncated note and message. -/
def update_relationship_memory (current : RelationshipScore)
    (affinityDelta trustDelta respectDelta : ℤ)
    (note message : String) : RelationshipScore :=
  { affinity := relClamp (current.affinity + affinityDelta)
    trust := relClamp (current.trust + trustDelta)
    respect := relClamp (current.respect + respectDelta)
    lastNote := pyTake note 80
    lastMessage := pyTake message 160 }

/-- The four personality traits. -/
structure Traits where
  ambition : ℚ
  sociability : ℚ
  curiosity : ℚ
  discipline : ℚ

/-- A reported needs snapshot; `none` models an absent or null field. -/
structure Needs where
  social : Option ℚ
  energy : Option ℚ
  hunger : Option ℚ

/-- Python `float(x or d)` on an optional numeric field: an absent, null or
zero value falls back to the default. -/
def pyOrNum (v : Option ℚ) (d : ℚ) : ℚ :=
  match v with
  | some q => if q = 0 then d else q
  | none => d

/-- Embedding of `_get_daily_phase`: a nonempty reported phase string wins,
else `dayProgress` thresholds (absent or non-coercible progress counts
as 0). -/
def get_daily_phase (phase : Option String) (dayProgress : Option ℚ) : String :=
  match phase with
  | some p =>
    if p ≠ "" then p
    else
      let pr := dayProgress.getD 0
      if pr < 0.35 then "morning" else if pr < 0.7 then "afternoon" else "night"
  | none =>
    let pr := dayProgress.getD 0
    if pr < 0.35 then "morning" else if pr < 0.7 then "afternoon" else "night"

/-- Embedding of `_select_intent`: weighted scoring with hunger and energy
penalties; arg-max with ties resolved in iteration order
(social, work, leisure); `worldPhase`/`dayProgress` feed
`_get_daily_phase`. -/
def select_intent (needs : Needs) (traits : Traits)
    (worldPhase : Option String) (dayProgress : Option ℚ) : String :=
  let social := pyOrNum needs.social 100
  let energy := pyOrNum needs.energy 100
  let hunger := pyOrNum needs.hunger 0
  let phase := get_daily_phase worldPhase dayProgress
  let wSocial := 0.4 + (1 - social / 100) * 0.7 + traits.sociability * 0.3
  let wWork := 0.3 + traits.discipline * 0.4 + (if phase = "morning" then (0.2 : ℚ) else 0)
  let wLeisure := 0.2 + traits.curiosity * 0.4 + (if phase = "night" then (0.2 : ℚ) else 0)
  let wWork := if hunger > 60 then wWork * 0.7 else wWork
  let wLeisure := if hunger > 60 then wLeisure * 0.6 else wLeisure
  let wSocial := if energy < 35 then wSocial * 0.7 else wSocial
  let wWork := if energy < 35 then wWork * 0.5 else wWork
  if wSocial ≥ wWork ∧ wSocial ≥ wLeisure then "social"
  else if wWork ≥ wLeisure then "work"
  else "leisure"

/-- The intent-selection formulas exactly as the specification states them,
over the raw reported needs (no falsy-value replacement). -/
def select_intent_spec (social energy hunger : ℚ) (traits : Traits)
    (phase : String) : String :=
  let wSocial := 0.4 + (1 - social / 100) * 0.7 + traits.sociability * 0.3
  let wWork := 0.3 + traits.discipline * 0.4 + (if phase = "morning" then (0.2 : ℚ) else 0)
  let wLeisure := 0.2 + traits.curiosity * 0.4 + (if phase = "night" then (0.2 : ℚ) else 0)
  let wWork := if hunger > 60 then wWork * 0.7 else wWork
  let wLeisure := if hunger > 60 then wLeisure * 0.6 else wLeisure
  let wSocial := if energy < 35 then wSocial * 0.7 else wSocial
  let wWork := if energy < 35 then wWork * 0.5 else wWork
  if wSocial ≥ wWork ∧ wSocial ≥ wLeisure then "social"
  else if wWork ≥ wLeisure then "work"
  else "leisure"

/-- A value found in an external profile traits map: a float-coercible
number or a non-coercible value. -/
inductive CoVal where
  | num (q : ℚ)
  | bad

/-- An external profile traits map; `none` models an absent field. -/
structure ProfileTraits where
  ambition : Option CoVal
  sociability : Option CoVal
  curiosity : Option CoVal
  discipline : Option CoVal

/-- Python `float(v)`: succeeds exactly on coercible values. -/
def coerceFloat : CoVal → Option ℚ
  | .num q => some q
  | .bad => none

/-- Python `float(traits.get(field, current))`: a present field is coerced
(and may fail); an absent field falls back to the current trait value. -/
def traitGet (field : Option CoVal) (cur : ℚ) : Option ℚ :=
  match field with
  | some v => coerceFloat v
  | none => some cur

/-- Embedding of `_apply_profile_traits`: `none` profile models a missing
or non-dict traits map; any coercion failure aborts before assignment, so
the stored vector is unchanged. -/
def apply_profile_traits (cur : Traits) (profile : Option ProfileTraits) : Traits :=
  match profile with
  | none => cur
  | some t =>
    match traitGet t.ambition cur.ambition with
    | none => cur
    | some a =>
      match traitGet t.sociability cur.sociability with
      | none => cur
      | some s =>
        match traitGet t.curiosity cur.curiosity with
        | none => cur
        | some c =>
          match traitGet t.discipline cur.discipline with
          | none => cur
          | some d => ⟨a, s, c, d⟩

/-- A live conversation as perceived from the world. -/
structure Conversation where
  id : String
  participants : List String

/-- The perception fields read by `_action_succeeded`: position (when
numeric), current building id (when present), live conversations. -/
structure Perception where
  position : Option (ℚ × ℚ)
  currentBuilding : Option String
  conversations : List Conversation

/-- The last dispatched action as recorded in plan state; kinds with no
verifiable success criterion are collapsed into `other`. -/
inductive LastAction where
  | move_to (x y : ℤ)
  | enter_building (building_id : String)
  | start_conversation (target_id : String) (message : String)
  | other (t : String)

/-- Plan state fields read by `_should_replan`; `none` in `lastActionAt`
models a missing or non-numeric timestamp (milliseconds). -/
structure PlanState where
  lastAction : Option LastAction
  lastActionAt : Option ℤ

/-- Embedding of `_action_succeeded`: per last-action type, `move_to`
succeeds within ±2 on each axis, `enter_building` when the current
building id equals the target, `start_conversation` when the target
appears among some live conversation participants; everything else (and
malformed data for `move_to`) is trivially successful. -/
def action_succeeded (p : Perception) (plan : PlanState) : Bool :=
  match plan.lastAction with
  | none => true
  | some (.move_to tx ty) =>
    match p.position with
    | some (px, py) => decide (|px - (tx : ℚ)| ≤ 2 ∧ |py - (ty : ℚ)| ≤ 2)
    | none => true
  | some (.enter_building bid) =>
    match p.currentBuilding with
    | some cid => cid == bid
    | none => false
  | some (.start_conversation tid _) =>
    p.conversations.any (fun c => c.participants.contains tid)
  | some (.other _) => true

/-- Embedding of `_should_replan`: replan when plan state is missing;
never replan without a numeric `lastActionAt`; otherwise replan exactly
when the action timeout (45 s) has elapsed and the last action did not
succeed. -/
def should_replan (now_ms : ℤ) (p : Perception) (plan : Option PlanState) : Bool :=
  match plan with
  | none => true
  | some pl =>
    match pl.lastActionAt with
    | none => false
    | some last_at =>
      if now_ms - last_at < 45 * 1000 then false
      else !(action_succeeded p pl)

/-- An entry of the recent-utterance buffer. -/
structure Utterance where
  speakerId : String
  message : String
  timestamp : ℤ

/-- Python `l[-n:]`. -/
def lastN {α : Type} (n : Nat) (l : List α) : List α :=
  l.drop (l.length - n)

/-- Embedding of `_remember_utterance`: skip falsy speaker or message, skip
meta-flagged messages, append the stripped message truncated to 280
characters, keep only the last 12 entries. -/
def remember_utterance (buf : List Utterance) (speaker_id message : String)
    (ts : ℤ) : List Utterance :=
  if speaker_id = "" ∨ message = "" then buf
  else if is_meta_message message then buf
  else lastN 12 (buf ++ [⟨speaker_id, pyTake (pyStrip message) 280, ts⟩])

/-- The `recentUtterances` list assembled by `_get_recent_context`: the
buffer filtered once more through the meta gate. -/
def get_recent_context_utterances (buf : List Utterance) : List Utterance :=
  buf.filter (fun u => !is_meta_message u.message)

/-- The entries a sequence of `_remember_utterance` calls accepts, in
order. -/
def accepted_utterances (inputs : List (String × String × ℤ)) : List Utterance :=
  (inputs.filter (fun i => decide (¬(i.1 = "" ∨ i.2.1 = "")) && !is_meta_message i.2.1)).map
    (fun i => ⟨i.1, pyTake (pyStrip i.2.1) 280, i.2.2⟩)

/-- Folding a list of heard utterances into the buffer, starting empty. -/
def remember_fold (inputs : List (String × String × ℤ)) : List Utterance :=
  inputs.foldl (fun buf i => remember_utterance buf i.1 i.2.1 i.2.2) []

/-- A server-pushed active goal, as read by the heuristic ladder:
urgency, optional numeric location, optional building id, event name. -/
structure ActiveGoal where
  urgency : ℚ
  locX : Option ℚ
  locY : Option ℚ
  buildingId : Option String
  eventName : String

/-- A perceived suggested goal. -/
structure Suggestion where
  sgType : String
  targetTypes : List String

/-- A perceived nearby building with its footprint. -/
structure Building where
  id : String
  btype : String
  posX : ℚ
  posY : ℚ
  width : ℚ
  height : ℚ

/-- A listed job; `assignedTruthy` is the truthiness of `assignedTo`. -/
structure Job where
  id : String
  assignedTruthy : Bool

/-- Python `a // b` on numbers (floor division). -/
def pyFloorDiv (a b : ℚ) : ℚ :=
  ((⌊a / b⌋ : ℤ) : ℚ)

/-- Embedding of `_building_target`: x at half width, y below the
footprint. -/
def building_target (b : Building) : ℤ × ℤ :=
  (pyTrunc (b.posX + max (pyFloorDiv b.width 2) 0), pyTrunc (b.posY + max b.height 1))

/-- The inputs of one `_heuristic_decision` call.  `currentIntent` is the
intent after the TTL refresh; `hotspot` and `jitter` stand for the random
draws of `_pick_hotspot` and the fallback jitter. -/
structure HeuristicEnv where
  goals : List ActiveGoal
  currentBuilding : Option String
  position : Option (ℤ × ℤ)
  nearbyBuildings : List Building
  suggestedGoals : List Suggestion
  balance : ℚ
  hasJob : Bool
  jobs : List Job
  currentIntent : String
  hotspot : String → ℤ × ℤ
  jitter : ℤ × ℤ

/-- The top-goal rule: speak on arrival at the goal building, else move to
its numeric coordinates, else fall through. -/
def goal_rule (g : ActiveGoal) (cur : Option String) : Option JVal :=
  if (match g.buildingId, cur with
      | some bid, some c => bid != "" && c == bid
      | _, _ => false) then
    some (mkAct "speak"
      [("message", .jstr ("Llegué al evento " ++ g.eventName ++ "."))])
  else
    match g.locX, g.locY with
    | some x, some y => some (mkMove (pyTrunc x) (pyTrunc y))
    | _, _ => none

/-- The suggested-goal rule: first nearby building whose type matches; if
already inside it, speak, else move to the footprint-derived point. -/
def suggestion_rule (s : Suggestion) (bs : List Building) (cur : Option String) : Option JVal :=
  match bs.find? (fun b => s.targetTypes.contains b.btype) with
  | some b =>
    if (match cur with | some c => c == b.id | none => false) then
      some (mkAct "speak"
        [("message", .jstr ("Necesitaba " ++ s.sgType ++ " y ya estoy aquí."))])
    else
      some (mkAct "move_to"
        [("x", .jnum ((building_target b).1 : ℚ)), ("y", .jnum ((building_target b).2 : ℚ))])
  | none => none

/-- The suggested-goals loop: the first suggestion producing an action
short-circuits. -/
def first_suggestion (ss : List Suggestion) (bs : List Building)
    (cur : Option String) : Option JVal :=
  match ss with
  | [] => none
  | s :: rest =>
    match suggestion_rule s bs cur with
    | some r => some r
    | none => first_suggestion rest bs cur

/-- The first job without a truthy `assignedTo`. -/
def first_unassigned (jobs : List Job) : Option Job :=
  (jobs.filter (fun j => !j.assignedTruthy)).head?

/-- The intent branches and the fallback jitter move of
`_heuristic_decision` (hotspot draws abstracted into `env.hotspot`). -/
def heuristic_intent (env : HeuristicEnv) : JVal :=
  if env.currentIntent = "social" then
    mkAct "move_to" [("x", .jnum ((env.hotspot "social").1 : ℚ)),
                     ("y", .jnum ((env.hotspot "social").2 : ℚ))]
  else if env.currentIntent = "work" then
    mkAct "move_to" [("x", .jnum ((env.hotspot "work").1 : ℚ)),
                     ("y", .jnum ((env.hotspot "work").2 : ℚ))]
  else if env.currentIntent = "leisure" then
    mkAct "move_to" [("x", .jnum ((env.hotspot "leisure").1 : ℚ)),
                     ("y", .jnum ((env.hotspot "leisure").2 : ℚ))]
  else
    match env.position with
    | some (px, py) =>
      let dx := if env.jitter.1 = 0 ∧ env.jitter.2 = 0 then 1 else env.jitter.1
      mkAct "move_to" [("x", .jnum ((px + dx : ℤ) : ℚ)), ("y", .jnum ((py + env.jitter.2 : ℤ) : ℚ))]
    | none => mkAct "wait" []

/-- The ladder after the goal rule: suggestions, then economic survival,
then intents. -/
def heuristic_rest (env : HeuristicEnv) : JVal :=
  match first_suggestion env.suggestedGoals env.nearbyBuildings env.currentBuilding with
  | some r => r
  | none =>
    if env.balance < 5 ∧ env.hasJob = false then
      match first_unassigned env.jobs with
      | some j => mkAct "apply_job" [("job_id", .jstr j.id)]
      | none => heuristic_intent env
    else heuristic_intent env

/-- Embedding of `_heuristic_decision`: goals sorted by descending urgency
(stable), top goal rule first, then `heuristic_rest`. -/
def heuristic_decision (env : HeuristicEnv) : JVal :=
  match env.goals.mergeSort (fun a b => decide (b.urgency ≤ a.urgency)) with
  | g :: _ =>
    match goal_rule g env.currentBuilding with
    | some r => r
    | none => heuristic_rest env
  | [] => heuristic_rest env

/-- Oracle credentials as read by `_decide_with_llm`. -/
structure LLMConfig where
  provider : String
  apiKey : String
  model : String

/-- The five provider names the source can build a request for. -/
def known_providers : List String :=
  ["openai", "anthropic", "minimax-portal", "ollama", "qwen-oauth"]

/-- Outcome of the HTTP call and provider-specific content extraction:
`raised` models a transport exception (caught by the source), `responded`
a parsed response body with the extracted message text. -/
inductive OracleTransport where
  | raised
  | responded (status : Nat) (content : Option String)

/-- The opening-brace character. -/
def lbrace : Char := Char.ofNat 123

/-- The closing-brace character. -/
def rbrace : Char := Char.ofNat 125

/-- Index of the last occurrence of a character. -/
def lastIdxOf (ch : Char) (l : List Char) : Option Nat :=
  match l.reverse.findIdx? (fun c => c == ch) with
  | some k => some (l.length - 1 - k)
  | none => none

/-- The single best-effort brace-delimited substring extraction
(`content.find` of the first opening brace to `content.rfind` of the last
closing brace, kept only when the span is nonempty). -/
def brace_span (c : String) : Option String :=
  match c.data.findIdx? (fun ch => ch == lbrace), lastIdxOf rbrace c.data with
  | some si, some ei =>
    if si < ei then some (String.mk ((c.data.drop si).take (ei + 1 - si)))
    else none
  | _, _ => none

/-- Replace or append a key in a dict. -/
def jSet (fields : List (String × JVal)) (k : String) (v : JVal) : List (String × JVal) :=
  if (fields.find? (fun p => p.1 == k)).isSome then
    fields.map (fun p => if p.1 == k then (p.1, v) else p)
  else fields ++ [(k, v)]

/-- The forced-conversation id injection of `_decide_with_llm`: in forced
mode, a parsed `conversation_message` without a truthy conversation id
receives the forced one. -/
def inject_conversation_id (force : Bool) (forcedId : Option String)
    (parsed : JVal) : JVal :=
  if force then
    match parsed with
    | .jobj fields =>
      if jEqStr (jGetN fields "type") "conversation_message" then
        match forcedId with
        | some fid =>
          let ps : List (String × JVal) :=
            match jGetN fields "params" with
            | .jobj l => l
            | _ => []
          if fid ≠ "" ∧ ¬jTruthy (jGetN ps "conversation_id") = true ∧
             ¬jTruthy (jGetN ps "conversationId") = true then
            .jobj (jSet fields "params" (.jobj (jSet ps "conversation_id" (.jstr fid))))
          else parsed
        | none => parsed
      else parsed
    | _ => parsed
  else parsed

/-- Embedding of the decision path of `_decide_with_llm`: credential and
provider gates, transport outcome, one direct JSON parse (`jparse` models
`json.loads`, `none` a parse error), at most one brace-substring retry,
forced-conversation injection, and the sanitizer as the final gate.  Every
caught failure returns `none`. -/
def decide_with_llm (cfg : LLMConfig) (transport : OracleTransport)
    (jparse : String → Option JVal) (bs : List JVal)
    (force : Bool) (forcedId : Option String) : Option JVal :=
  if cfg.provider = "" ∨ cfg.model = "" then none
  else if cfg.provider ≠ "ollama" ∧ cfg.apiKey = "" then none
  else if cfg.provider ∉ known_providers then none
  else
    match transport with
    | .raised => none
    | .responded status content =>
      if 400 ≤ status then none
      else
        match content with
        | none => none
        | some c =>
          if c = "" then none
          else
            match jparse c with
            | some parsed =>
              sanitize_llm_action bs (inject_conversation_id force forcedId parsed)
            | none =>
              match brace_span c with
              | some snippet =>
                match jparse snippet with
                | some parsed =>
                  sanitize_llm_action bs (inject_conversation_id force forcedId parsed)
                | none => none
              | none => none

theorem sanitize_mkReq (bs : List JVal) (t : String) (ps : List (String × JVal)) :
    sanitize_llm_action bs (mkReq t ps) = sanitizeDispatch bs t ps := by
  cases ps <;> rfl

theorem sanitize_move_rest_shape (bs : List JVal) (ps : List (String × JVal)) (r : JVal)
    (h : sanitize_move_rest bs ps = some r) : ∃ x y : ℤ, r = mkMove x y := by
  unfold sanitize_move_rest at h
  try dsimp only at h
  repeat' split at h
  all_goals first
    | exact Option.noConfusion h
    | (injection h with h2; exact ⟨_, _, h2.symm⟩)

theorem sanitize_move_to_shape (bs : List JVal) (ps : List (String × JVal)) (r : JVal)
    (h : sanitize_move_to bs ps = some r) : ∃ x y : ℤ, r = mkMove x y := by
  unfold sanitize_move_to at h
  try dsimp only at h
  repeat' split at h
  all_goals first
    | exact Option.noConfusion h
    | (injection h with h2; exact ⟨_, _, h2.symm⟩)
    | exact sanitize_move_rest_shape bs ps r h

theorem sanitize_enter_building_shape (ps : List (String × JVal)) (r : JVal)
    (h : sanitize_enter_building ps = some r) :
    ∃ b, b ≠ "" ∧ r = mkAct "enter_building" [("building_id", .jstr b)] := by
  unfold sanitize_enter_building at h
  try dsimp only at h
  split at h
  · rename_i b hb
    split at h
    · rename_i hg
      injection h with h2
      exact ⟨pyStrip b, by simpa using hg, h2.symm⟩
    · exact Option.noConfusion h
  · exact Option.noConfusion h

theorem sanitize_speak_shape (ps : List (String × JVal)) (r : JVal)
    (h : sanitize_speak ps = some r) :
    ∃ m, r = mkAct "speak" [("message", .jstr m)] := by
  unfold sanitize_speak at h
  try dsimp only at h
  split at h
  · injection h with h2
    exact ⟨_, h2.symm⟩
  · exact Option.noConfusion h

theorem sanitize_start_conversation_shape (ps : List (String × JVal)) (r : JVal)
    (h : sanitize_start_conversation ps = some r) :
    ∃ t m, t ≠ "" ∧ ¬ is_meta_message m = true ∧
      r = mkAct "start_conversation" [("target_id", .jstr t), ("message", .jstr m)] := by
  unfold sanitize_start_conversation at h
  try dsimp only at h
  split at h
  · rename_i t ht0
    split at h
    · rename_i m hm0
      split at h
      · rename_i hg
        split at h
        · exact Option.noConfusion h
        · rename_i hmeta
          injection h with h2
          exact ⟨pyStrip t, m, by simpa using hg, hmeta, h2.symm⟩
      · exact Option.noConfusion h
    · exact Option.noConfusion h
  · exact Option.noConfusion h

theorem sanitize_conv_msg_target_shape (ps : List (String × JVal)) (m : String) (r : JVal)
    (h : sanitize_conv_msg_target ps m = some r) :
    ∃ t, t ≠ "" ∧ r = mkAct "conversation_message"
      [("target_id", .jstr t), ("message", .jstr m)] := by
  unfold sanitize_conv_msg_target at h
  try dsimp only at h
  split at h
  · rename_i t ht0
    split at h
    · rename_i hg
      injection h with h2
      exact ⟨pyStrip t, by simpa using hg, h2.symm⟩
    · exact Option.noConfusion h
  · exact Option.noConfusion h

theorem sanitize_conversation_message_shape (ps : List (String × JVal)) (r : JVal)
    (h : sanitize_conversation_message ps = some r) :
    (∃ c m, c ≠ "" ∧ r = mkAct "conversation_message"
        [("conversation_id", .jstr c), ("message", .jstr m)]) ∨
    (∃ t m, t ≠ "" ∧ r = mkAct "conversation_message"
        [("target_id", .jstr t), ("message", .jstr m)]) := by
  unfold sanitize_conversation_message at h
  try dsimp only at h
  split at h
  · rename_i m hm0
    split at h
    · exact Option.noConfusion h
    · split at h
      · rename_i c hc0
        split at h
        · rename_i hg
          injection h with h2
          exact Or.inl ⟨pyStrip c, m, by simpa using hg, h2.symm⟩
        · obtain ⟨t, ht, rfl⟩ := sanitize_conv_msg_target_shape ps m r h
          exact Or.inr ⟨t, m, ht, rfl⟩
      · obtain ⟨t, ht, rfl⟩ := sanitize_conv_msg_target_shape ps m r h
        exact Or.inr ⟨t, m, ht, rfl⟩
  · exact Option.noConfusion h

theorem sanitize_apply_job_shape (ps : List (String × JVal)) (r : JVal)
    (h : sanitize_apply_job ps = some r) :
    ∃ j, j ≠ "" ∧ r = mkAct "apply_job" [("job_id", .jstr j)] := by
  unfold sanitize_apply_job at h
  try dsimp only at h
  split at h
  · rename_i j hj0
    split at h
    · rename_i hg
      injection h with h2
      exact ⟨pyStrip j, by simpa using hg, h2.symm⟩
    · exact Option.noConfusion h
  · exact Option.noConfusion h

theorem sanitize_buy_property_shape (ps : List (String × JVal)) (r : JVal)
    (h : sanitize_buy_property ps = some r) :
    ∃ p, p ≠ "" ∧ r = mkAct "buy_property" [("property_id", .jstr p)] := by
  unfold sanitize_buy_property at h
  try dsimp only at h
  split at h
  · rename_i p hp0
    split at h
    · rename_i hg
      injection h with h2
      exact ⟨pyStrip p, by simpa using hg, h2.symm⟩
    · exact Option.noConfusion h
  · exact Option.noConfusion h

theorem sanitize_vote_job_shape (ps : List (String × JVal)) (r : JVal)
    (h : sanitize_vote_job ps = some r) :
    ∃ a j, a ≠ "" ∧ j ≠ "" ∧ r = mkAct "vote_job"
      [("applicant_id", .jstr a), ("job_id", .jstr j)] := by
  unfold sanitize_vote_job at h
  try dsimp only at h
  split at h
  · rename_i a ha0
    split at h
    · rename_i j hj0
      split at h
      · rename_i hg
        rw [Bool.and_eq_true] at hg
        injection h with h2
        exact ⟨pyStrip a, pyStrip j, by simpa using hg.1, by simpa using hg.2, h2.symm⟩
      · exact Option.noConfusion h
    · exact Option.noConfusion h
  · exact Option.noConfusion h

theorem sanitizeDispatch_canonical (bs : List JVal) (t : String)
    (ps : List (String × JVal)) (r : JVal)
    (h : sanitizeDispatch bs t ps = some r) : CanonicalAction r := by
  unfold sanitizeDispatch at h
  unfold CanonicalAction
  split_ifs at h
  · exact Or.inl (sanitize_move_to_shape bs ps r h)
  · obtain ⟨b, hb, rfl⟩ := sanitize_enter_building_shape ps r h
    exact Or.inr (Or.inl ⟨b, hb, rfl⟩)
  · obtain ⟨m, rfl⟩ := sanitize_speak_shape ps r h
    exact Or.inr (Or.inr (Or.inl ⟨m, rfl⟩))
  · obtain ⟨t', m, ht, _, rfl⟩ := sanitize_start_conversation_shape ps r h
    exact Or.inr (Or.inr (Or.inr (Or.inl ⟨t', m, ht, rfl⟩)))
  · rcases sanitize_conversation_message_shape ps r h with ⟨c, m, hc, rfl⟩ | ⟨t', m, ht, rfl⟩
    · exact Or.inr (Or.inr (Or.inr (Or.inr (Or.inl ⟨c, m, hc, rfl⟩))))
    · exact Or.inr (Or.inr (Or.inr (Or.inr (Or.inr (Or.inl ⟨t', m, ht, rfl⟩)))))
  · obtain ⟨j, hj, rfl⟩ := sanitize_apply_job_shape ps r h
    exact Or.inr (Or.inr (Or.inr (Or.inr (Or.inr (Or.inr (Or.inl ⟨j, hj, rfl⟩))))))
  · obtain ⟨p, hp, rfl⟩ := sanitize_buy_property_shape ps r h
    exact Or.inr (Or.inr (Or.inr (Or.inr (Or.inr (Or.inr (Or.inr (Or.inl ⟨p, hp, rfl⟩)))))))
  · obtain ⟨a, j, ha, hj, rfl⟩ := sanitize_vote_job_shape ps r h
    exact Or.inr (Or.inr (Or.inr (Or.inr (Or.inr (Or.inr (Or.inr (Or.inr (Or.inl ⟨a, j, ha, hj, rfl⟩))))))))
  · injection h with h2
    exact Or.inr (Or.inr (Or.inr (Or.inr (Or.inr (Or.inr (Or.inr (Or.inr (Or.inr h2.symm))))))))

theorem sanitize_llm_action_canonical (bs : List JVal) (a r : JVal)
    (h : sanitize_llm_action bs a = some r) : CanonicalAction r := by
  cases a with
  | jobj afields =>
    simp only [sanitize_llm_action] at h
    cases hts : asStr? (jGetN afields "type") with
    | none => rw [hts] at h; exact Option.noConfusion h
    | some t =>
      rw [hts] at h
      exact sanitizeDispatch_canonical bs t _ r h
  | jnull => exact Option.noConfusion h
  | jbool b => exact Option.noConfusion h
  | jnum q => exact Option.noConfusion h
  | jstr s => exact Option.noConfusion h
  | jarr l => exact Option.noConfusion h

theorem sanitize_unknown_type (bs : List JVal) (t : String) (ps : List (String × JVal))
    (h : t ∉ actionWhitelist) : sanitize_llm_action bs (mkReq t ps) = none := by
  rw [sanitize_mkReq]
  simp only [actionWhitelist, List.mem_cons, List.mem_singleton, not_or] at h
  obtain ⟨h1, h2, h3, h4, h5, h6, h7, h8, h9⟩ := h
  unfold sanitizeDispatch
  simp [h1, h2, h3, h4, h5, h6, h7, h8, h9]

/-- Helper: `sanitize_start_conversation` rejects whenever the resolved
message is a string flagged by the meta filter. -/
theorem sanitize_start_conversation_meta (ps : List (String × JVal)) (m : String)
    (hmsg : asStr? (pyOr (jGetN ps "message") (jGetN ps "text")) = some m)
    (hmeta : is_meta_message m = true) :
    sanitize_start_conversation ps = none := by
  unfold sanitize_start_conversation
  dsimp only
  rw [hmsg]
  cases htid : asStr? (pyOr (pyOr (pyOr (pyOr (jGetN ps "target_id") (jGetN ps "targetId"))
      (jGetN ps "target")) (jGetN ps "to")) (jGetN ps "otherId")) with
  | none => rfl
  | some t => simp [hmeta]

/-- Helper: `sanitize_conversation_message` rejects whenever the resolved
message is a string flagged by the meta filter. -/
theorem sanitize_conversation_message_meta (ps : List (String × JVal)) (m : String)
    (hmsg : asStr? (pyOr (jGetN ps "message") (jGetN ps "text")) = some m)
    (hmeta : is_meta_message m = true) :
    sanitize_conversation_message ps = none := by
  unfold sanitize_conversation_message
  dsimp only
  rw [hmsg]
  simp [hmeta]

/-- C1 (counterexample): the claim is false for the `speak` action type.
The message "test" contains a banned token, yet `_sanitize_llm_action`
accepts the speak action verbatim instead of returning rejection. -/
theorem C1_counterexample :
    is_meta_message "test" = true ∧
    sanitize_llm_action [] (mkReq "speak" [("message", .jstr "test")]) =
      some (mkAct "speak" [("message", .jstr "test")]) :=
  ⟨by rfl, by rfl⟩

/-- C1 (amended): a conversational action of type `start_conversation` or
`conversation_message` whose resolved message text is flagged by the banned
lexical filter is rejected (`none`); the `speak` type is not filtered and a
string message is passed through verbatim. -/
theorem C1_meta_gate (bs : List JVal) (ps : List (String × JVal)) (m : String)
    (hmsg : asStr? (pyOr (jGetN ps "message") (jGetN ps "text")) = some m)
    (hmeta : is_meta_message m = true) :
    sanitize_llm_action bs (mkReq "start_conversation" ps) = none ∧
    sanitize_llm_action bs (mkReq "conversation_message" ps) = none ∧
    (∀ m', jGetN ps "message" = .jstr m' →
      sanitize_llm_action bs (mkReq "speak" ps) =
        some (mkAct "speak" [("message", .jstr m')])) := by
  refine ⟨?_, ?_, ?_⟩
  · rw [sanitize_mkReq]
    show sanitize_start_conversation ps = none
    exact sanitize_start_conversation_meta ps m hmsg hmeta
  · rw [sanitize_mkReq]
    show sanitize_conversation_message ps = none
    exact sanitize_conversation_message_meta ps m hmsg hmeta
  · intro m' hm'
    rw [sanitize_mkReq]
    show sanitize_speak ps = some (mkAct "speak" [("message", .jstr m')])
    unfold sanitize_speak
    rw [hm']
    rfl

/-- C1 witness: concrete instantiation of `C1_meta_gate` with the banned
message "test". -/
theorem C1_meta_gate_witness :
    sanitize_llm_action []
      (mkReq "start_conversation" [("target_id", .jstr "a1"), ("message", .jstr "test")]) = none ∧
    sanitize_llm_action []
      (mkReq "conversation_message" [("target_id", .jstr "a1"), ("message", .jstr "test")]) = none :=
  ⟨(C1_meta_gate [] [("target_id", .jstr "a1"), ("message", .jstr "test")] "test"
      (by rfl) (by rfl)).1,
   (C1_meta_gate [] [("target_id", .jstr "a1"), ("message", .jstr "test")] "test"
      (by rfl) (by rfl)).2.1⟩

/-- C2: the validator round-trip property.  Every accepted proposal is a
canonical `{type, params}` dict of one of the nine whitelisted kinds with
exactly the required, type-coerced fields; every whitelisted kind with
minimally valid params round-trips to exactly that canonical shape; an
unknown type is rejected; a missing or wrong-typed required field is
rejected. -/
theorem C2_validator :
    (∀ (bs : List JVal) (a r : JVal),
        sanitize_llm_action bs a = some r → CanonicalAction r) ∧
    (∀ (bs : List JVal) (t : String) (ps : List (String × JVal)),
        t ∉ actionWhitelist → sanitize_llm_action bs (mkReq t ps) = none) ∧
    (sanitize_llm_action [] (mkReq "move_to" [("x", .jnum 3), ("y", .jnum 4)]) =
      some (mkMove 3 4)) ∧
    (sanitize_llm_action [] (mkReq "enter_building" [("building_id", .jstr "casa1")]) =
      some (mkAct "enter_building" [("building_id", .jstr "casa1")])) ∧
    (sanitize_llm_action [] (mkReq "speak" [("message", .jstr "hola")]) =
      some (mkAct "speak" [("message", .jstr "hola")])) ∧
    (sanitize_llm_action []
        (mkReq "start_conversation" [("target_id", .jstr "a1"), ("message", .jstr "hola")]) =
      some (mkAct "start_conversation" [("target_id", .jstr "a1"), ("message", .jstr "hola")])) ∧
    (sanitize_llm_action []
        (mkReq "conversation_message" [("conversation_id", .jstr "c1"), ("message", .jstr "hola")]) =
      some (mkAct "conversation_message" [("conversation_id", .jstr "c1"), ("message", .jstr "hola")])) ∧
    (sanitize_llm_action [] (mkReq "apply_job" [("job_id", .jstr "j1")]) =
      some (mkAct "apply_job" [("job_id", .jstr "j1")])) ∧
    (sanitize_llm_action [] (mkReq "buy_property" [("property_id", .jstr "p1")]) =
      some (mkAct "buy_property" [("property_id", .jstr "p1")])) ∧
    (sanitize_llm_action []
        (mkReq "vote_job" [("applicant_id", .jstr "a1"), ("job_id", .jstr "j1")]) =
      some (mkAct "vote_job" [("applicant_id", .jstr "a1"), ("job_id", .jstr "j1")])) ∧
    (sanitize_llm_action [] (mkReq "wait" []) = some (mkAct "wait" [])) ∧
    (sanitize_llm_action [] (mkReq "move_to" [("x", .jnum 3)]) = none) ∧
    (sanitize_llm_action [] (mkReq "move_to" [("x", .jstr "3"), ("y", .jnum 4)]) = none) ∧
    (sanitize_llm_action [] (mkReq "enter_building" []) = none) ∧
    (sanitize_llm_action [] (mkReq "enter_building" [("building_id", .jnum 7)]) = none) ∧
    (sanitize_llm_action [] (mkReq "speak" []) = none) ∧
    (sanitize_llm_action [] (mkReq "speak" [("message", .jnum 1)]) = none) ∧
    (sanitize_llm_action [] (mkReq "start_conversation" [("target_id", .jstr "a1")]) = none) ∧
    (sanitize_llm_action [] (mkReq "start_conversation" [("message", .jstr "hola")]) = none) ∧
    (sanitize_llm_action [] (mkReq "conversation_message" [("message", .jstr "hola")]) = none) ∧
    (sanitize_llm_action []
        (mkReq "conversation_message" [("message", .jnum 5), ("conversation_id", .jstr "c1")]) = none) ∧
    (sanitize_llm_action [] (mkReq "apply_job" []) = none) ∧
    (sanitize_llm_action [] (mkReq "buy_property" [("property_id", .jnum 2)]) = none) ∧
    (sanitize_llm_action [] (mkReq "vote_job" [("applicant_id", .jstr "a1")]) = none) :=
  ⟨sanitize_llm_action_canonical, sanitize_unknown_type,
   by rfl, by rfl, by rfl, by rfl, by rfl, by rfl, by rfl, by rfl, by rfl,
   by rfl, by rfl, by rfl, by rfl, by rfl, by rfl, by rfl, by rfl, by rfl,
   by rfl, by rfl, by rfl, by rfl⟩

/-- C2 witness: the universally quantified conjuncts of `C2_validator`
applied at concrete inputs. -/
theorem C2_validator_witness :
    CanonicalAction (mkAct "wait" []) ∧
    sanitize_llm_action [] (mkReq "dance" []) = none :=
  ⟨C2_validator.1 [] (mkReq "wait" []) (mkAct "wait" []) (by rfl),
   C2_validator.2.1 [] "dance" [] (by decide)⟩

/-- C3 (counterexample): on a fresh `buy_house` chain (all steps pending),
one progress update with an active job marks `get_job` done while its
prerequisite `need_money` is still pending, so a step becomes done out of
order. -/
theorem C3_counterexample :
    (List.find? (fun s => s.id == "get_job")
        (update_motivation_progress (init_chain (build_motivation_chain "buy_house"))
          true 0 0)).map Step.status = some "done" ∧
    (List.find? (fun s => s.id == "need_money")
        (update_motivation_progress (init_chain (build_motivation_chain "buy_house"))
          true 0 0)).map Step.status = some "pending" ∧
    (List.find? (fun s => s.id == "get_job")
        (update_motivation_progress (init_chain (build_motivation_chain "buy_house"))
          true 0 0)).map Step.requires = some ["need_money"] := by
  refine ⟨?_, ?_, ?_⟩ <;> rfl

/-- C3 (amended): `_update_motivation_progress` marks exactly `get_job`
done when a job is active and `need_money` done when the frozen target
price is nonzero and not above the balance, regardless of prerequisite
status; it never reverts a done step. -/
theorem C3_update_characterization (chain : List Step) (hasJob : Bool)
    (balance targetPrice : ℚ) :
    update_motivation_progress chain hasJob balance targetPrice =
      chain.map (motivation_update_rule hasJob balance targetPrice) ∧
    (∀ s : Step, s.status = "done" →
      (motivation_update_rule hasJob balance targetPrice s).status = "done") := by
  constructor
  · unfold update_motivation_progress
    cases hasJob with
    | true =>
      simp only [if_true]
      by_cases hm : targetPrice ≠ 0 ∧ targetPrice ≤ balance
      · rw [if_pos hm]
        unfold mark_chain_done
        rw [List.map_map]
        refine List.map_congr_left (fun s _ => ?_)
        by_cases h1 : s.id = "get_job"
        · have h2 : ¬ s.id = "need_money" := by rw [h1]; decide
          simp [Function.comp, motivation_update_rule, h1, h2, hm]
        · by_cases h2 : s.id = "need_money" <;>
            simp [Function.comp, motivation_update_rule, h1, h2, hm]
      · rw [if_neg hm]
        unfold mark_chain_done
        refine List.map_congr_left (fun s _ => ?_)
        by_cases h1 : s.id = "get_job" <;> simp [motivation_update_rule, h1, hm]
    | false =>
      simp only [Bool.false_eq_true, if_false]
      by_cases hm : targetPrice ≠ 0 ∧ targetPrice ≤ balance
      · rw [if_pos hm]
        unfold mark_chain_done
        refine List.map_congr_left (fun s _ => ?_)
        by_cases h2 : s.id = "need_money" <;>
          simp [motivation_update_rule, h2, hm]
      · rw [if_neg hm]
        conv_lhs => rw [show chain = chain.map id from (List.map_id chain).symm]
        refine List.map_congr_left (fun s _ => ?_)
        simp [motivation_update_rule, hm]
  · intro s hs
    unfold motivation_update_rule
    split <;> simp [hs]

/-- C3 witness: the characterization applied to the concrete fresh
`buy_house` chain, and monotonicity applied to a concrete done step. -/
theorem C3_update_characterization_witness :
    update_motivation_progress (init_chain (build_motivation_chain "buy_house")) true 0 0 =
      (init_chain (build_motivation_chain "buy_house")).map (motivation_update_rule true 0 0) ∧
    (motivation_update_rule true 0 0 ⟨"get_job", "x", [], "done"⟩).status = "done" :=
  ⟨(C3_update_characterization (init_chain (build_motivation_chain "buy_house")) true 0 0).1,
   (C3_update_characterization (init_chain (build_motivation_chain "buy_house")) true 0 0).2
     ⟨"get_job", "x", [], "done"⟩ rfl⟩

/-- C4: after `_update_relationship_memory`, affinity, trust and respect
each lie in [-10, 10] whatever integer deltas the analysis supplied. -/
theorem C4_relationship_clamp (current : RelationshipScore)
    (affinityDelta trustDelta respectDelta : ℤ) (note message : String) :
    -10 ≤ (update_relationship_memory current affinityDelta trustDelta respectDelta
        note message).affinity ∧
    (update_relationship_memory current affinityDelta trustDelta respectDelta
        note message).affinity ≤ 10 ∧
    -10 ≤ (update_relationship_memory current affinityDelta trustDelta respectDelta
        note message).trust ∧
    (update_relationship_memory current affinityDelta trustDelta respectDelta
        note message).trust ≤ 10 ∧
    -10 ≤ (update_relationship_memory current affinityDelta trustDelta respectDelta
        note message).respect ∧
    (update_relationship_memory current affinityDelta trustDelta respectDelta
        note message).respect ≤ 10 := by
  unfold update_relationship_memory relClamp
  refine ⟨?_, ?_, ?_, ?_, ?_, ?_⟩ <;> simp

/-- C7 (counterexample): the claimed formulas fail at a reported social
need of 0 — the code replaces the falsy value 0 by 100, so it picks
`work` where the specified formula picks `social`. -/
theorem C7_counterexample :
    select_intent ⟨some 0, some 100, some 0⟩ ⟨0, 0, 0, 1⟩ (some "afternoon") none = "work" ∧
    select_intent_spec 0 100 0 ⟨0, 0, 0, 1⟩ "afternoon" = "social" := by
  constructor <;>
    norm_num [select_intent, select_intent_spec, pyOrNum, get_daily_phase,
      (show ("afternoon" : String) ≠ "" by decide),
      (show ("afternoon" : String) ≠ "morning" by decide),
      (show ("afternoon" : String) ≠ "night" by decide)]

/-- C7 (amended): `_select_intent` computes exactly the specified weighted
formulas and arg-max with iteration-order tie-break, but over effective
needs where a falsy (0, absent or null) social or energy reading is
replaced by 100 and a falsy hunger by 0; it is a pure function of the
reported needs, traits and day phase.  The second conjunct checks the
specification scenario hunger 80, energy 20, social 90. -/
theorem C7_intent_formulas :
    (∀ (needs : Needs) (traits : Traits) (wp : Option String) (dp : Option ℚ),
      select_intent needs traits wp dp =
        select_intent_spec (pyOrNum needs.social 100) (pyOrNum needs.energy 100)
          (pyOrNum needs.hunger 0) traits (get_daily_phase wp dp)) ∧
    select_intent ⟨some 90, some 20, some 80⟩ ⟨0.5, 0.5, 0.5, 0.5⟩
      (some "afternoon") none = "social" := by
  constructor
  · intro needs traits wp dp
    rfl
  · norm_num [select_intent, pyOrNum, get_daily_phase,
      (show ("afternoon" : String) ≠ "" by decide),
      (show ("afternoon" : String) ≠ "morning" by decide),
      (show ("afternoon" : String) ≠ "night" by decide)]

/-- C8 (counterexample): a profile whose traits map holds only
`sociability` is not rejected — the override applies that one field and
keeps the others, contradicting the all-four-required atomic rejection. -/
theorem C8_counterexample :
    apply_profile_traits ⟨0.5, 0.6, 0.5, 0.5⟩
        (some ⟨none, some (.num 0.9), none, none⟩) = ⟨0.5, 0.9, 0.5, 0.5⟩ ∧
    apply_profile_traits ⟨0.5, 0.6, 0.5, 0.5⟩
        (some ⟨none, some (.num 0.9), none, none⟩) ≠ ⟨0.5, 0.6, 0.5, 0.5⟩ := by
  have hres : apply_profile_traits ⟨0.5, 0.6, 0.5, 0.5⟩
      (some ⟨none, some (.num 0.9), none, none⟩) = ⟨0.5, 0.9, 0.5, 0.5⟩ := rfl
  refine ⟨hres, ?_⟩
  rw [hres]
  intro h
  have h2 := congrArg Traits.sociability h
  norm_num at h2

/-- C8 (amended): `_apply_profile_traits` treats absent fields as keeping
the current value; any present field that fails float coercion rejects the
whole override atomically (stored vector unchanged); otherwise all four
resolved values are applied together. -/
theorem C8_partial_override (cur : Traits) (t : ProfileTraits) :
    (t.ambition = some .bad ∨ t.sociability = some .bad ∨
     t.curiosity = some .bad ∨ t.discipline = some .bad →
      apply_profile_traits cur (some t) = cur) ∧
    (∀ a s c d : ℚ,
      traitGet t.ambition cur.ambition = some a →
      traitGet t.sociability cur.sociability = some s →
      traitGet t.curiosity cur.curiosity = some c →
      traitGet t.discipline cur.discipline = some d →
      apply_profile_traits cur (some t) = ⟨a, s, c, d⟩) := by
  constructor
  · intro h
    rcases h with h | h | h | h <;>
      · simp only [apply_profile_traits, h, traitGet, coerceFloat]
        repeat' split
        all_goals rfl
  · intro a s c d ha hs hc hd
    simp only [apply_profile_traits, ha, hs, hc, hd]

/-- C8 witness: atomic rejection with a concrete non-coercible field, and
a concrete partial override applying one present field. -/
theorem C8_partial_override_witness :
    apply_profile_traits ⟨0.5, 0.6, 0.5, 0.5⟩
        (some ⟨none, some (.num 0.9), none, some .bad⟩) = ⟨0.5, 0.6, 0.5, 0.5⟩ ∧
    apply_profile_traits ⟨0.5, 0.6, 0.5, 0.5⟩
        (some ⟨none, some (.num 0.9), none, none⟩) = ⟨0.5, 0.9, 0.5, 0.5⟩ :=
  ⟨(C8_partial_override ⟨0.5, 0.6, 0.5, 0.5⟩ ⟨none, some (.num 0.9), none, some .bad⟩).1
      (Or.inr (Or.inr (Or.inr rfl))),
   (C8_partial_override ⟨0.5, 0.6, 0.5, 0.5⟩ ⟨none, some (.num 0.9), none, none⟩).2
      0.5 0.9 0.5 0.5 rfl rfl rfl rfl⟩

/-- Helper: re-taking the last n after appending one element to an already
truncated list equals truncating the full appended list. -/
theorem lastN_append_last {α : Type} (n : Nat) (l : List α) (x : α) :
    lastN n (lastN n l ++ [x]) = lastN n (l ++ [x]) := by
  unfold lastN
  rcases le_or_lt l.length n with hle | hlt
  · have h0 : l.length - n = 0 := by omega
    simp [h0]
  · rcases Nat.eq_zero_or_pos n with hn0 | hnpos
    · subst hn0
      have e1 : List.drop (l.length - 0) l = [] := by
        simp [List.drop_length]
      rw [e1]
      simp [List.drop_eq_nil_of_le]
    · have hlen : (l.drop (l.length - n)).length = n := by
        rw [List.length_drop]; omega
      rw [List.length_append, hlen, List.length_append]
      simp only [List.length_singleton]
      have h1 : n + 1 - n = 1 := by omega
      rw [h1, List.drop_append_of_le_length (by omega),
        List.drop_append_of_le_length (by omega), List.drop_drop]
      have h2 : l.length - n + 1 = l.length + 1 - n := by omega
      rw [h2]

/-- Helper: the buffer fold from a truncated prefix equals the truncation
of the prefix extended by all accepted entries. -/
theorem remember_fold_eq (inputs : List (String × String × ℤ)) (pre : List Utterance) :
    inputs.foldl (fun buf i => remember_utterance buf i.1 i.2.1 i.2.2) (lastN 12 pre) =
      lastN 12 (pre ++ accepted_utterances inputs) := by
  induction inputs generalizing pre with
  | nil => simp [accepted_utterances]
  | cons i rest ih =>
    simp only [List.foldl_cons]
    by_cases h1 : i.1 = "" ∨ i.2.1 = ""
    · have hpred : (decide (¬(i.1 = "" ∨ i.2.1 = "")) && !is_meta_message i.2.1) = false := by
        simp [h1]
      have hacc : accepted_utterances (i :: rest) = accepted_utterances rest := by
        unfold accepted_utterances
        rw [List.filter_cons, hpred]
        simp
      have hstep : remember_utterance (lastN 12 pre) i.1 i.2.1 i.2.2 = lastN 12 pre := by
        simp [remember_utterance, h1]
      rw [hstep, hacc, ih pre]
    · by_cases h2 : is_meta_message i.2.1 = true
      · have hpred : (decide (¬(i.1 = "" ∨ i.2.1 = "")) && !is_meta_message i.2.1) = false := by
          simp [h2]
        have hacc : accepted_utterances (i :: rest) = accepted_utterances rest := by
          unfold accepted_utterances
          rw [List.filter_cons, hpred]
          simp
        have hstep : remember_utterance (lastN 12 pre) i.1 i.2.1 i.2.2 = lastN 12 pre := by
          simp [remember_utterance, h1, h2]
        rw [hstep, hacc, ih pre]
      · have hpred : (decide (¬(i.1 = "" ∨ i.2.1 = "")) && !is_meta_message i.2.1) = true := by
          simp [h1, h2]
        have hacc : accepted_utterances (i :: rest) =
            (⟨i.1, pyTake (pyStrip i.2.1) 280, i.2.2⟩ : Utterance) :: accepted_utterances rest := by
          unfold accepted_utterances
          rw [List.filter_cons, hpred]
          simp
        have hstep : remember_utterance (lastN 12 pre) i.1 i.2.1 i.2.2 =
            lastN 12 (lastN 12 pre ++ [(⟨i.1, pyTake (pyStrip i.2.1) 280, i.2.2⟩ : Utterance)]) := by
          simp [remember_utterance, h1, h2]
        have hih := ih (pre ++ [(⟨i.1, pyTake (pyStrip i.2.1) 280, i.2.2⟩ : Utterance)])
        rw [hstep, lastN_append_last, hacc, hih]
        simp

/-- C5: with a recorded numeric `lastActionAt`, `_should_replan` is true
exactly when the 45-second action timeout has elapsed and
`_action_succeeded` is false; and `_action_succeeded` checks per last
action type: ±2 tolerance for `move_to`, building-id equality for
`enter_building`, participant membership for `start_conversation`, and
trivial success for every other type. -/
theorem C5_replan (now_ms : ℤ) (p : Perception) (pl : PlanState) (t : ℤ)
    (ht : pl.lastActionAt = some t) :
    (should_replan now_ms p (some pl) = true ↔
      45 * 1000 ≤ now_ms - t ∧ action_succeeded p pl = false) ∧
    (∀ tx ty px py, pl.lastAction = some (.move_to tx ty) →
      p.position = some (px, py) →
      (action_succeeded p pl = true ↔ |px - (tx : ℚ)| ≤ 2 ∧ |py - (ty : ℚ)| ≤ 2)) ∧
    (∀ bid cid, pl.lastAction = some (.enter_building bid) →
      p.currentBuilding = some cid →
      (action_succeeded p pl = true ↔ cid = bid)) ∧
    (∀ tid m, pl.lastAction = some (.start_conversation tid m) →
      (action_succeeded p pl = true ↔ ∃ c ∈ p.conversations, tid ∈ c.participants)) ∧
    (∀ t', pl.lastAction = some (.other t') → action_succeeded p pl = true) := by
  refine ⟨?_, ?_, ?_, ?_, ?_⟩
  · simp only [should_replan, ht]
    split
    · rename_i hlt
      constructor
      · intro hh
        exact absurd hh (by simp)
      · rintro ⟨hge, _⟩
        exact absurd hge (by omega)
    · rename_i hge
      have h45 : (45000 : ℤ) ≤ now_ms - t := by omega
      simp only [Bool.not_eq_true']
      constructor
      · intro hh
        exact ⟨by omega, hh⟩
      · intro hh
        exact hh.2
  · intro tx ty px py hla hpos
    simp [action_succeeded, hla, hpos]
  · intro bid cid hla hcb
    simp [action_succeeded, hla, hcb]
  · intro tid m hla
    simp [action_succeeded, hla, List.any_eq_true]
  · intro t' hla
    simp [action_succeeded, hla]

/-- C5 witness: a move_to action recorded 46 s ago with the agent more
than 2 cells away forces a replan. -/
theorem C5_replan_witness :
    should_replan 46000 ⟨some (20, 20), none, []⟩
      (some ⟨some (.move_to 10 10), some 0⟩) = true :=
  (C5_replan 46000 ⟨some (20, 20), none, []⟩ ⟨some (.move_to 10 10), some 0⟩ 0 rfl).1.mpr
    ⟨by norm_num, by norm_num [action_succeeded]⟩

/-- C10: the recent-utterance buffer equals the last 12 accepted entries
(oldest dropped first); a meta-flagged message is never remembered; the
buffer holds at most 12 entries, each stored message a stripped
280-character truncation of a message that passed the meta filter; and the
`recentUtterances` context list never contains a meta-flagged message. -/
theorem C10_utterance_buffer (inputs : List (String × String × ℤ)) :
    remember_fold inputs = lastN 12 (accepted_utterances inputs) ∧
    (∀ buf speaker message ts, is_meta_message message = true →
      remember_utterance buf speaker message ts = buf) ∧
    (remember_fold inputs).length ≤ 12 ∧
    (∀ u ∈ remember_fold inputs, u.message.data.length ≤ 280 ∧
      ∃ orig, is_meta_message orig = false ∧ u.message = pyTake (pyStrip orig) 280) ∧
    (∀ (buf : List Utterance) u, u ∈ get_recent_context_utterances buf →
      is_meta_message u.message = false) := by
  have hfold : remember_fold inputs = lastN 12 (accepted_utterances inputs) := by
    have h0 : ([] : List Utterance) = lastN 12 [] := by simp [lastN]
    unfold remember_fold
    rw [h0, remember_fold_eq inputs []]
    simp
  refine ⟨hfold, ?_, ?_, ?_, ?_⟩
  · intro buf speaker message ts hmeta
    unfold remember_utterance
    by_cases h1 : speaker = "" ∨ message = "" <;> simp [h1, hmeta]
  · rw [hfold]
    unfold lastN
    rw [List.length_drop]
    omega
  · intro u hu
    rw [hfold] at hu
    have hu2 : u ∈ accepted_utterances inputs := by
      unfold lastN at hu
      exact List.mem_of_mem_drop hu
    unfold accepted_utterances at hu2
    rw [List.mem_map] at hu2
    obtain ⟨i, hi, rfl⟩ := hu2
    rw [List.mem_filter] at hi
    have hcond := hi.2
    rw [Bool.and_eq_true] at hcond
    constructor
    · simp [pyTake, List.length_take]
    · refine ⟨i.2.1, ?_, rfl⟩
      have := hcond.2
      simp only [Bool.not_eq_true'] at this
      exact this
  · intro buf u hu
    unfold get_recent_context_utterances at hu
    rw [List.mem_filter] at hu
    have := hu.2
    simpa [Bool.not_eq_true'] using this

/-- C10 witness: the no-meta-remembered clause applied to a concrete
banned message, and the context filter applied to a concrete buffer. -/
theorem C10_utterance_buffer_witness :
    remember_utterance [] "a1" "test" 5 = [] ∧
    remember_fold [("a1", "hola", 0)] = lastN 12 (accepted_utterances [("a1", "hola", 0)]) :=
  ⟨(C10_utterance_buffer []).2.1 [] "a1" "test" 5 (by rfl),
   (C10_utterance_buffer [("a1", "hola", 0)]).1⟩

/-- Helper: when every suggestion fails to match, the loop yields none. -/
theorem first_suggestion_none (ss : List Suggestion) (bs : List Building)
    (cur : Option String)
    (h : ∀ s ∈ ss, suggestion_rule s bs cur = none) :
    first_suggestion ss bs cur = none := by
  induction ss with
  | nil => rfl
  | cons s rest ih =>
    unfold first_suggestion
    rw [h s (List.mem_cons_self s rest)]
    exact ih (fun s' hs' => h s' (List.mem_cons_of_mem s hs'))

/-- C9: when no active goal produces an action (no usable location, not at
the goal building), no suggested goal matches a nearby building type,
balance is below 5 and there is no job, `_heuristic_decision` applies to
the first job without an assignedTo in the listed jobs. -/
theorem C9_survival (env : HeuristicEnv) (j : Job)
    (hgoals : ∀ g ∈ env.goals, goal_rule g env.currentBuilding = none)
    (hsugg : ∀ s ∈ env.suggestedGoals,
      suggestion_rule s env.nearbyBuildings env.currentBuilding = none)
    (hbal : env.balance < 5)
    (hjob : env.hasJob = false)
    (hfirst : first_unassigned env.jobs = some j) :
    heuristic_decision env = mkAct "apply_job" [("job_id", .jstr j.id)] := by
  have hrest : heuristic_rest env = mkAct "apply_job" [("job_id", .jstr j.id)] := by
    unfold heuristic_rest
    rw [first_suggestion_none env.suggestedGoals env.nearbyBuildings env.currentBuilding hsugg]
    rw [if_pos ⟨hbal, hjob⟩, hfirst]
  unfold heuristic_decision
  cases hsort : env.goals.mergeSort (fun a b => decide (b.urgency ≤ a.urgency)) with
  | nil => exact hrest
  | cons g rest =>
    have hg : g ∈ env.goals := by
      have hperm := List.mergeSort_perm env.goals (fun a b => decide (b.urgency ≤ a.urgency))
      have : g ∈ env.goals.mergeSort (fun a b => decide (b.urgency ≤ a.urgency)) := by
        rw [hsort]; exact List.mem_cons_self g rest
      exact hperm.subset this
    dsimp only
    rw [hgoals g hg]
    exact hrest

/-- C9 witness: a concrete broke, jobless environment applies to the first
unassigned job. -/
theorem C9_survival_witness :
    heuristic_decision
      ⟨[], none, some (0, 0), [], [], 3, false, [⟨"j1", false⟩, ⟨"j2", true⟩],
        "social", fun _ => (16, 18), (1, 1)⟩ =
      mkAct "apply_job" [("job_id", .jstr "j1")] :=
  C9_survival
    ⟨[], none, some (0, 0), [], [], 3, false, [⟨"j1", false⟩, ⟨"j2", true⟩],
      "social", fun _ => (16, 18), (1, 1)⟩
    ⟨"j1", false⟩
    (by intro g hg; exact absurd hg (List.not_mem_nil g))
    (by intro s hs; exact absurd hs (List.not_mem_nil s))
    (by norm_num) rfl rfl

/-- C6: oracle-response handling.  Missing credentials, an unknown
provider, a transport exception, an HTTP error status, and empty content
all yield `none`; when direct JSON parsing fails, exactly one
brace-delimited substring extraction is attempted before giving up; and
any accepted result has passed the sanitizer, hence is canonical — the
embedded failure paths return `none` rather than raising. -/
theorem C6_oracle_handling (cfg : LLMConfig) (tr : OracleTransport)
    (jparse : String → Option JVal) (bs : List JVal)
    (force : Bool) (fid : Option String) :
    (cfg.provider = "" ∨ cfg.model = "" →
      decide_with_llm cfg tr jparse bs force fid = none) ∧
    (cfg.provider ≠ "ollama" ∧ cfg.apiKey = "" →
      decide_with_llm cfg tr jparse bs force fid = none) ∧
    (cfg.provider ∉ known_providers →
      decide_with_llm cfg tr jparse bs force fid = none) ∧
    (tr = .raised → decide_with_llm cfg tr jparse bs force fid = none) ∧
    (∀ st content, tr = .responded st content → 400 ≤ st →
      decide_with_llm cfg tr jparse bs force fid = none) ∧
    (∀ st, tr = .responded st none → decide_with_llm cfg tr jparse bs force fid = none) ∧
    (∀ st c, tr = .responded st (some c) → st < 400 → c ≠ "" → jparse c = none →
      ¬(cfg.provider = "" ∨ cfg.model = "") →
      ¬(cfg.provider ≠ "ollama" ∧ cfg.apiKey = "") →
      cfg.provider ∈ known_providers →
      decide_with_llm cfg tr jparse bs force fid =
        (match brace_span c with
         | some snippet =>
           match jparse snippet with
           | some parsed =>
             sanitize_llm_action bs (inject_conversation_id force fid parsed)
           | none => none
         | none => none)) ∧
    (∀ r, decide_with_llm cfg tr jparse bs force fid = some r → CanonicalAction r) := by
  refine ⟨?_, ?_, ?_, ?_, ?_, ?_, ?_, ?_⟩
  · intro h
    unfold decide_with_llm
    rw [if_pos h]
  · intro h
    unfold decide_with_llm
    split_ifs <;> first | rfl | tauto
  · intro h
    unfold decide_with_llm
    split_ifs <;> first | rfl | tauto
  · intro h
    subst h
    unfold decide_with_llm
    split_ifs <;> rfl
  · intro st content h hst
    subst h
    unfold decide_with_llm
    dsimp only
    split_ifs <;> first | rfl | (exfalso; omega)
  · intro st h
    subst h
    unfold decide_with_llm
    dsimp only
    split_ifs <;> rfl
  · intro st c h hst hc hp h1 h2 h3
    subst h
    unfold decide_with_llm
    rw [if_neg h1, if_neg h2, if_neg (by simpa using h3)]
    dsimp only
    rw [if_neg (by omega), if_neg hc, hp]
  · intro r h
    unfold decide_with_llm at h
    split_ifs at h <;> try exact Option.noConfusion h
    repeat' split at h
    all_goals first
      | exact Option.noConfusion h
      | exact sanitize_llm_action_canonical bs _ r h

/-- C6 witness: the missing-credentials and transport-error clauses at
concrete inputs, and the one-retry clause with a parser that always
fails. -/
theorem C6_oracle_handling_witness :
    decide_with_llm ⟨"", "", ""⟩ .raised (fun _ => none) [] false none = none ∧
    decide_with_llm ⟨"openai", "k", "m"⟩ .raised (fun _ => none) [] false none = none ∧
    decide_with_llm ⟨"openai", "k", "m"⟩ (.responded 200 (some "abc"))
      (fun _ => none) [] false none =
      (match brace_span "abc" with
       | some snippet =>
         match (fun (_ : String) => (none : Option JVal)) snippet with
         | some parsed => sanitize_llm_action [] (inject_conversation_id false none parsed)
         | none => none
       | none => none) :=
  ⟨(C6_oracle_handling ⟨"", "", ""⟩ .raised (fun _ => none) [] false none).1 (Or.inl rfl),
   (C6_oracle_handling ⟨"openai", "k", "m"⟩ .raised (fun _ => none) [] false none).2.2.2.1 rfl,
   (C6_oracle_handling ⟨"openai", "k", "m"⟩ (.responded 200 (some "abc"))
      (fun _ => none) [] false none).2.2.2.2.2.2.1 200 "abc" rfl (by decide)
      (by decide) rfl (by decide) (by decide) (by decide)⟩
